import Mathlib

/-
Shallow embedding of src/src/compiler/machine-operator.h (the machine-level
operator catalog of the TurboFan backend): the representation and write-barrier
enumerations, the operator-descriptor value, and the MachineOperatorBuilder
factory with its catalog of construction methods.
-/

namespace MachineOp

/-- An enumeration of the storage representations at the machine level,
from machine-operator.h.  `kMachineLast` is the sentinel member of the
C++ enum and is kept for faithfulness. -/
inductive MachineRepresentation where
  | kMachineWord8
  | kMachineWord16
  | kMachineWord32
  | kMachineWord64
  | kMachineFloat64
  | kMachineTagged
  | kMachineLast
deriving DecidableEq

/-- The write-barrier classification for stores, from machine-operator.h. -/
inductive WriteBarrierKind where
  | kNoWriteBarrier
  | kFullWriteBarrier
deriving DecidableEq

/-- A Store needs a MachineRepresentation and a WriteBarrierKind in order to
emit the correct write barrier (struct StoreRepresentation). -/
structure StoreRepresentation where
  rep : MachineRepresentation
  write_barrier_kind : WriteBarrierKind
deriving DecidableEq

/-- Modelled from the spec: the opcode space (src/compiler/opcodes.h) is not
under src/; the spec describes it as a closed, externally owned enumeration
from which every catalog entry's opcode is drawn.  We enumerate exactly the
opcodes the catalog in machine-operator.h names via `IrOpcode::k<name>`. -/
inductive IrOpcode where
  | Load
  | Store
  | Word32And
  | Word32Or
  | Word32Xor
  | Word32Shl
  | Word32Shr
  | Word32Sar
  | Word32Equal
  | Word64And
  | Word64Or
  | Word64Xor
  | Word64Shl
  | Word64Shr
  | Word64Sar
  | Word64Equal
  | Int32Add
  | Int32Sub
  | Int32Mul
  | Int32Div
  | Int32UDiv
  | Int32Mod
  | Int32UMod
  | Int32LessThan
  | Int32LessThanOrEqual
  | Uint32LessThan
  | Uint32LessThanOrEqual
  | Int64Add
  | Int64Sub
  | Int64Mul
  | Int64Div
  | Int64UDiv
  | Int64Mod
  | Int64UMod
  | Int64LessThan
  | Int64LessThanOrEqual
  | ConvertInt32ToInt64
  | ConvertInt64ToInt32
  | ConvertInt32ToFloat64
  | ConvertUint32ToFloat64
  | ConvertFloat64ToInt32
  | ConvertFloat64ToUint32
  | Float64Add
  | Float64Sub
  | Float64Mul
  | Float64Div
  | Float64Mod
  | Float64Equal
  | Float64LessThan
  | Float64LessThanOrEqual
deriving DecidableEq

/-- Modelled from the spec: the Operator property bit-set lives in
src/compiler/operator.h, which is not under src/.  The spec (section 6)
describes it as a small flag set with members `Pure, Commutative, Associative,
NoRead, NoWrite, NoThrow`, combinable; we give each member its own bit. -/
def kPure : Nat := 1

/-- Modelled from the spec: the Commutative property bit (see `kPure`). -/
def kCommutative : Nat := 2

/-- Modelled from the spec: the Associative property bit (see `kPure`). -/
def kAssociative : Nat := 4

/-- Modelled from the spec: the NoRead property bit (see `kPure`). -/
def kNoRead : Nat := 8

/-- Modelled from the spec: the NoWrite property bit (see `kPure`). -/
def kNoWrite : Nat := 16

/-- Modelled from the spec: the NoThrow property bit (see `kPure`). -/
def kNoThrow : Nat := 32

/-- The optional typed payload of a descriptor: SimpleOperator carries none,
`Operator1<MachineRepresentation>` carries a representation (Load), and
`Operator1<StoreRepresentation>` carries a store specification (Store). -/
inductive OpParameter where
  | none
  | repParam (r : MachineRepresentation)
  | storeParam (s : StoreRepresentation)
deriving DecidableEq

/-- The operator-descriptor value: opcode identity, property bit-set,
input/output arity, mnemonic, and optional parameter.  Structural equality of
this record is the descriptor equality the IR layer deduplicates by. -/
structure Operator where
  opcode : IrOpcode
  properties : Nat
  inputs : Nat
  outputs : Nat
  mnemonic : String
  parameter : OpParameter
deriving DecidableEq

/-- Tests one property bit of a descriptor (Operator::HasProperty). -/
def Operator.hasProperty (op : Operator) (p : Nat) : Bool :=
  op.properties &&& p != 0

/-- The SIMPLE macro: builds a SimpleOperator (no parameter) with the given
opcode, properties, arities and mnemonic. -/
def SIMPLE (opcode : IrOpcode) (properties inputs outputs : Nat)
    (mnemonic : String) : Operator :=
  ⟨opcode, properties, inputs, outputs, mnemonic, OpParameter.none⟩

/-- The OP1 macro: builds an `Operator1<ptype>` with the given parameter, and
ors `Operator::kNoThrow` into the supplied properties. -/
def OP1 (opcode : IrOpcode) (pname : OpParameter) (properties inputs outputs : Nat)
    (mnemonic : String) : Operator :=
  ⟨opcode, properties ||| kNoThrow, inputs, outputs, mnemonic, pname⟩

/-- The BINOP macro: SIMPLE(name, Operator::kPure, 2, 1). -/
def BINOP (opcode : IrOpcode) (mnemonic : String) : Operator :=
  SIMPLE opcode kPure 2 1 mnemonic

/-- The BINOP_C macro: SIMPLE(name, kCommutative | kPure, 2, 1). -/
def BINOP_C (opcode : IrOpcode) (mnemonic : String) : Operator :=
  SIMPLE opcode (kCommutative ||| kPure) 2 1 mnemonic

/-- The BINOP_AC macro: SIMPLE(name, kAssociative | kCommutative | kPure, 2, 1). -/
def BINOP_AC (opcode : IrOpcode) (mnemonic : String) : Operator :=
  SIMPLE opcode (kAssociative ||| kCommutative ||| kPure) 2 1 mnemonic

/-- The UNOP macro: SIMPLE(name, Operator::kPure, 1, 1). -/
def UNOP (opcode : IrOpcode) (mnemonic : String) : Operator :=
  SIMPLE opcode kPure 1 1 mnemonic

/-- The MachineOperatorBuilder's per-instance state: the fixed word-width
configuration `word_`.  The Zone* handle only affects where descriptors are
allocated; allocation is modelled separately by `zoneNew`. -/
structure MachineOperatorBuilder where
  word : MachineRepresentation
deriving DecidableEq

/-- The constructor of MachineOperatorBuilder with its CHECK: a CHECK failure
is a fatal abort, modelled as `Option.none`; a passing CHECK stores `word`. -/
def MachineOperatorBuilder.create (word : MachineRepresentation) :
    Option MachineOperatorBuilder :=
  if word = MachineRepresentation.kMachineWord32 ∨
      word = MachineRepresentation.kMachineWord64 then
    Option.some ⟨word⟩
  else
    Option.none

def MachineOperatorBuilder.is32 (b : MachineOperatorBuilder) : Bool :=
  b.word == MachineRepresentation.kMachineWord32

def MachineOperatorBuilder.is64 (b : MachineOperatorBuilder) : Bool :=
  b.word == MachineRepresentation.kMachineWord64

/-- Load(rep): OP1(Load, MachineRepresentation, rep, kNoWrite, 2, 1). -/
def MachineOperatorBuilder.Load (_b : MachineOperatorBuilder)
    (rep : MachineRepresentation) : Operator :=
  OP1 IrOpcode.Load (OpParameter.repParam rep) kNoWrite 2 1 "Load"

/-- Store(rep, kind): OP1(Store, StoreRepresentation, \x7brep, kind\x7d,
kNoRead, 3, 0).  In C++ `kind` defaults to kNoWriteBarrier. -/
def MachineOperatorBuilder.Store (_b : MachineOperatorBuilder)
    (rep : MachineRepresentation) (kind : WriteBarrierKind) : Operator :=
  OP1 IrOpcode.Store (OpParameter.storeParam ⟨rep, kind⟩) kNoRead 3 0 "Store"

def MachineOperatorBuilder.Word32And (_b : MachineOperatorBuilder) : Operator :=
  BINOP_AC IrOpcode.Word32And "Word32And"

def MachineOperatorBuilder.Word32Or (_b : MachineOperatorBuilder) : Operator :=
  BINOP_AC IrOpcode.Word32Or "Word32Or"

def MachineOperatorBuilder.Word32Xor (_b : MachineOperatorBuilder) : Operator :=
  BINOP_AC IrOpcode.Word32Xor "Word32Xor"

def MachineOperatorBuilder.Word32Shl (_b : MachineOperatorBuilder) : Operator :=
  BINOP IrOpcode.Word32Shl "Word32Shl"

def MachineOperatorBuilder.Word32Shr (_b : MachineOperatorBuilder) : Operator :=
  BINOP IrOpcode.Word32Shr "Word32Shr"

def MachineOperatorBuilder.Word32Sar (_b : MachineOperatorBuilder) : Operator :=
  BINOP IrOpcode.Word32Sar "Word32Sar"

def MachineOperatorBuilder.Word32Equal (_b : MachineOperatorBuilder) : Operator :=
  BINOP_C IrOpcode.Word32Equal "Word32Equal"

def MachineOperatorBuilder.Word64And (_b : MachineOperatorBuilder) : Operator :=
  BINOP_AC IrOpcode.Word64And "Word64And"

def MachineOperatorBuilder.Word64Or (_b : MachineOperatorBuilder) : Operator :=
  BINOP_AC IrOpcode.Word64Or "Word64Or"

def MachineOperatorBuilder.Word64Xor (_b : MachineOperatorBuilder) : Operator :=
  BINOP_AC IrOpcode.Word64Xor "Word64Xor"

def MachineOperatorBuilder.Word64Shl (_b : MachineOperatorBuilder) : Operator :=
  BINOP IrOpcode.Word64Shl "Word64Shl"

def MachineOperatorBuilder.Word64Shr (_b : MachineOperatorBuilder) : Operator :=
  BINOP IrOpcode.Word64Shr "Word64Shr"

def MachineOperatorBuilder.Word64Sar (_b : MachineOperatorBuilder) : Operator :=
  BINOP IrOpcode.Word64Sar "Word64Sar"

def MachineOperatorBuilder.Word64Equal (_b : MachineOperatorBuilder) : Operator :=
  BINOP_C IrOpcode.Word64Equal "Word64Equal"

/-- WordAnd(): the WORD_SIZE macro, `return is64() ? Word64And() : Word32And()`. -/
def MachineOperatorBuilder.WordAnd (b : MachineOperatorBuilder) : Operator :=
  if b.is64 then b.Word64And else b.Word32And

def MachineOperatorBuilder.WordOr (b : MachineOperatorBuilder) : Operator :=
  if b.is64 then b.Word64Or else b.Word32Or

def MachineOperatorBuilder.WordXor (b : MachineOperatorBuilder) : Operator :=
  if b.is64 then b.Word64Xor else b.Word32Xor

def MachineOperatorBuilder.WordShl (b : MachineOperatorBuilder) : Operator :=
  if b.is64 then b.Word64Shl else b.Word32Shl

def MachineOperatorBuilder.WordShr (b : MachineOperatorBuilder) : Operator :=
  if b.is64 then b.Word64Shr else b.Word32Shr

def MachineOperatorBuilder.WordSar (b : MachineOperatorBuilder) : Operator :=
  if b.is64 then b.Word64Sar else b.Word32Sar

def MachineOperatorBuilder.WordEqual (b : MachineOperatorBuilder) : Operator :=
  if b.is64 then b.Word64Equal else b.Word32Equal

def MachineOperatorBuilder.Int32Add (_b : MachineOperatorBuilder) : Operator :=
  BINOP_AC IrOpcode.Int32Add "Int32Add"

def MachineOperatorBuilder.Int32Sub (_b : MachineOperatorBuilder) : Operator :=
  BINOP IrOpcode.Int32Sub "Int32Sub"

def MachineOperatorBuilder.Int32Mul (_b : MachineOperatorBuilder) : Operator :=
  BINOP_AC IrOpcode.Int32Mul "Int32Mul"

def MachineOperatorBuilder.Int32Div (_b : MachineOperatorBuilder) : Operator :=
  BINOP IrOpcode.Int32Div "Int32Div"

def MachineOperatorBuilder.Int32UDiv (_b : MachineOperatorBuilder) : Operator :=
  BINOP IrOpcode.Int32UDiv "Int32UDiv"

def MachineOperatorBuilder.Int32Mod (_b : MachineOperatorBuilder) : Operator :=
  BINOP IrOpcode.Int32Mod "Int32Mod"

def MachineOperatorBuilder.Int32UMod (_b : MachineOperatorBuilder) : Operator :=
  BINOP IrOpcode.Int32UMod "Int32UMod"

def MachineOperatorBuilder.Int32LessThan (_b : MachineOperatorBuilder) : Operator :=
  BINOP IrOpcode.Int32LessThan "Int32LessThan"

def MachineOperatorBuilder.Int32LessThanOrEqual (_b : MachineOperatorBuilder) : Operator :=
  BINOP IrOpcode.Int32LessThanOrEqual "Int32LessThanOrEqual"

def MachineOperatorBuilder.Uint32LessThan (_b : MachineOperatorBuilder) : Operator :=
  BINOP IrOpcode.Uint32LessThan "Uint32LessThan"

def MachineOperatorBuilder.Uint32LessThanOrEqual (_b : MachineOperatorBuilder) : Operator :=
  BINOP IrOpcode.Uint32LessThanOrEqual "Uint32LessThanOrEqual"

def MachineOperatorBuilder.Int64Add (_b : MachineOperatorBuilder) : Operator :=
  BINOP_AC IrOpcode.Int64Add "Int64Add"

def MachineOperatorBuilder.Int64Sub (_b : MachineOperatorBuilder) : Operator :=
  BINOP IrOpcode.Int64Sub "Int64Sub"

def MachineOperatorBuilder.Int64Mul (_b : MachineOperatorBuilder) : Operator :=
  BINOP_AC IrOpcode.Int64Mul "Int64Mul"

def MachineOperatorBuilder.Int64Div (_b : MachineOperatorBuilder) : Operator :=
  BINOP IrOpcode.Int64Div "Int64Div"

def MachineOperatorBuilder.Int64UDiv (_b : MachineOperatorBuilder) : Operator :=
  BINOP IrOpcode.Int64UDiv "Int64UDiv"

def MachineOperatorBuilder.Int64Mod (_b : MachineOperatorBuilder) : Operator :=
  BINOP IrOpcode.Int64Mod "Int64Mod"

def MachineOperatorBuilder.Int64UMod (_b : MachineOperatorBuilder) : Operator :=
  BINOP IrOpcode.Int64UMod "Int64UMod"

def MachineOperatorBuilder.Int64LessThan (_b : MachineOperatorBuilder) : Operator :=
  BINOP IrOpcode.Int64LessThan "Int64LessThan"

def MachineOperatorBuilder.Int64LessThanOrEqual (_b : MachineOperatorBuilder) : Operator :=
  BINOP IrOpcode.Int64LessThanOrEqual "Int64LessThanOrEqual"

def MachineOperatorBuilder.ConvertInt32ToInt64 (_b : MachineOperatorBuilder) : Operator :=
  UNOP IrOpcode.ConvertInt32ToInt64 "ConvertInt32ToInt64"

def MachineOperatorBuilder.ConvertInt64ToInt32 (_b : MachineOperatorBuilder) : Operator :=
  UNOP IrOpcode.ConvertInt64ToInt32 "ConvertInt64ToInt32"

def MachineOperatorBuilder.ConvertInt32ToFloat64 (_b : MachineOperatorBuilder) : Operator :=
  UNOP IrOpcode.ConvertInt32ToFloat64 "ConvertInt32ToFloat64"

def MachineOperatorBuilder.ConvertUint32ToFloat64 (_b : MachineOperatorBuilder) : Operator :=
  UNOP IrOpcode.ConvertUint32ToFloat64 "ConvertUint32ToFloat64"

def MachineOperatorBuilder.ConvertFloat64ToInt32 (_b : MachineOperatorBuilder) : Operator :=
  UNOP IrOpcode.ConvertFloat64ToInt32 "ConvertFloat64ToInt32"

def MachineOperatorBuilder.ConvertFloat64ToUint32 (_b : MachineOperatorBuilder) : Operator :=
  UNOP IrOpcode.ConvertFloat64ToUint32 "ConvertFloat64ToUint32"

def MachineOperatorBuilder.Float64Add (_b : MachineOperatorBuilder) : Operator :=
  BINOP_C IrOpcode.Float64Add "Float64Add"

def MachineOperatorBuilder.Float64Sub (_b : MachineOperatorBuilder) : Operator :=
  BINOP IrOpcode.Float64Sub "Float64Sub"

def MachineOperatorBuilder.Float64Mul (_b : MachineOperatorBuilder) : Operator :=
  BINOP_C IrOpcode.Float64Mul "Float64Mul"

def MachineOperatorBuilder.Float64Div (_b : MachineOperatorBuilder) : Operator :=
  BINOP IrOpcode.Float64Div "Float64Div"

def MachineOperatorBuilder.Float64Mod (_b : MachineOperatorBuilder) : Operator :=
  BINOP IrOpcode.Float64Mod "Float64Mod"

def MachineOperatorBuilder.Float64Equal (_b : MachineOperatorBuilder) : Operator :=
  BINOP_C IrOpcode.Float64Equal "Float64Equal"

def MachineOperatorBuilder.Float64LessThan (_b : MachineOperatorBuilder) : Operator :=
  BINOP IrOpcode.Float64LessThan "Float64LessThan"

def MachineOperatorBuilder.Float64LessThanOrEqual (_b : MachineOperatorBuilder) : Operator :=
  BINOP IrOpcode.Float64LessThanOrEqual "Float64LessThanOrEqual"

/-- One value per factory method of the builder, with the method's arguments:
the whole public construction surface of MachineOperatorBuilder. -/
inductive FactoryCall where
  | load (r : MachineRepresentation)
  | store (r : MachineRepresentation) (k : WriteBarrierKind)
  | wordAnd
  | wordOr
  | wordXor
  | wordShl
  | wordShr
  | wordSar
  | wordEqual
  | word32And
  | word32Or
  | word32Xor
  | word32Shl
  | word32Shr
  | word32Sar
  | word32Equal
  | word64And
  | word64Or
  | word64Xor
  | word64Shl
  | word64Shr
  | word64Sar
  | word64Equal
  | int32Add
  | int32Sub
  | int32Mul
  | int32Div
  | int32UDiv
  | int32Mod
  | int32UMod
  | int32LessThan
  | int32LessThanOrEqual
  | uint32LessThan
  | uint32LessThanOrEqual
  | int64Add
  | int64Sub
  | int64Mul
  | int64Div
  | int64UDiv
  | int64Mod
  | int64UMod
  | int64LessThan
  | int64LessThanOrEqual
  | convertInt32ToInt64
  | convertInt64ToInt32
  | convertInt32ToFloat64
  | convertUint32ToFloat64
  | convertFloat64ToInt32
  | convertFloat64ToUint32
  | float64Add
  | float64Sub
  | float64Mul
  | float64Div
  | float64Mod
  | float64Equal
  | float64LessThan
  | float64LessThanOrEqual

/-- Dispatches a `FactoryCall` to the corresponding builder method. -/
def MachineOperatorBuilder.call (b : MachineOperatorBuilder) : FactoryCall → Operator
  | FactoryCall.load r => b.Load r
  | FactoryCall.store r k => b.Store r k
  | FactoryCall.wordAnd => b.WordAnd
  | FactoryCall.wordOr => b.WordOr
  | FactoryCall.wordXor => b.WordXor
  | FactoryCall.wordShl => b.WordShl
  | FactoryCall.wordShr => b.WordShr
  | FactoryCall.wordSar => b.WordSar
  | FactoryCall.wordEqual => b.WordEqual
  | FactoryCall.word32And => b.Word32And
  | FactoryCall.word32Or => b.Word32Or
  | FactoryCall.word32Xor => b.Word32Xor
  | FactoryCall.word32Shl => b.Word32Shl
  | FactoryCall.word32Shr => b.Word32Shr
  | FactoryCall.word32Sar => b.Word32Sar
  | FactoryCall.word32Equal => b.Word32Equal
  | FactoryCall.word64And => b.Word64And
  | FactoryCall.word64Or => b.Word64Or
  | FactoryCall.word64Xor => b.Word64Xor
  | FactoryCall.word64Shl => b.Word64Shl
  | FactoryCall.word64Shr => b.Word64Shr
  | FactoryCall.word64Sar => b.Word64Sar
  | FactoryCall.word64Equal => b.Word64Equal
  | FactoryCall.int32Add => b.Int32Add
  | FactoryCall.int32Sub => b.Int32Sub
  | FactoryCall.int32Mul => b.Int32Mul
  | FactoryCall.int32Div => b.Int32Div
  | FactoryCall.int32UDiv => b.Int32UDiv
  | FactoryCall.int32Mod => b.Int32Mod
  | FactoryCall.int32UMod => b.Int32UMod
  | FactoryCall.int32LessThan => b.Int32LessThan
  | FactoryCall.int32LessThanOrEqual => b.Int32LessThanOrEqual
  | FactoryCall.uint32LessThan => b.Uint32LessThan
  | FactoryCall.uint32LessThanOrEqual => b.Uint32LessThanOrEqual
  | FactoryCall.int64Add => b.Int64Add
  | FactoryCall.int64Sub => b.Int64Sub
  | FactoryCall.int64Mul => b.Int64Mul
  | FactoryCall.int64Div => b.Int64Div
  | FactoryCall.int64UDiv => b.Int64UDiv
  | FactoryCall.int64Mod => b.Int64Mod
  | FactoryCall.int64UMod => b.Int64UMod
  | FactoryCall.int64LessThan => b.Int64LessThan
  | FactoryCall.int64LessThanOrEqual => b.Int64LessThanOrEqual
  | FactoryCall.convertInt32ToInt64 => b.ConvertInt32ToInt64
  | FactoryCall.convertInt64ToInt32 => b.ConvertInt64ToInt32
  | FactoryCall.convertInt32ToFloat64 => b.ConvertInt32ToFloat64
  | FactoryCall.convertUint32ToFloat64 => b.ConvertUint32ToFloat64
  | FactoryCall.convertFloat64ToInt32 => b.ConvertFloat64ToInt32
  | FactoryCall.convertFloat64ToUint32 => b.ConvertFloat64ToUint32
  | FactoryCall.float64Add => b.Float64Add
  | FactoryCall.float64Sub => b.Float64Sub
  | FactoryCall.float64Mul => b.Float64Mul
  | FactoryCall.float64Div => b.Float64Div
  | FactoryCall.float64Mod => b.Float64Mod
  | FactoryCall.float64Equal => b.Float64Equal
  | FactoryCall.float64LessThan => b.Float64LessThan
  | FactoryCall.float64LessThanOrEqual => b.Float64LessThanOrEqual

/-- True for the two factory methods that construct through the OP1 path
(parameterized `Operator1`); false for every SIMPLE-path and dispatching
method. -/
def FactoryCall.isParameterized : FactoryCall → Bool
  | FactoryCall.load _ => true
  | FactoryCall.store _ _ => true
  | _ => false

/-- Placement `new (zone_)`: the zone is a bump allocator, modelled as the next
free address; an allocation returns the address the descriptor was placed at,
the descriptor, and the advanced zone. -/
def zoneNew (z : Nat) (op : Operator) : (Nat × Operator) × Nat :=
  ((z, op), z + 1)

/-- A factory call observed together with its allocation: the C++ methods
return a fresh pointer from the builder's zone on every call. -/
def MachineOperatorBuilder.callInZone (b : MachineOperatorBuilder) (z : Nat)
    (c : FactoryCall) : (Nat × Operator) × Nat :=
  zoneNew z (b.call c)

/-- A builder configured with the 32-bit word width. -/
def builder32 : MachineOperatorBuilder := ⟨MachineRepresentation.kMachineWord32⟩

/-- A builder configured with the 64-bit word width. -/
def builder64 : MachineOperatorBuilder := ⟨MachineRepresentation.kMachineWord64⟩

/-- The opcodes whose catalog descriptors the spec documents as Commutative. -/
def commutativeOpcodes : List IrOpcode :=
  [IrOpcode.Int32Add, IrOpcode.Int64Add, IrOpcode.Int32Mul, IrOpcode.Int64Mul,
   IrOpcode.Word32And, IrOpcode.Word64And, IrOpcode.Word32Or, IrOpcode.Word64Or,
   IrOpcode.Word32Xor, IrOpcode.Word64Xor, IrOpcode.Word32Equal,
   IrOpcode.Word64Equal, IrOpcode.Float64Add, IrOpcode.Float64Mul,
   IrOpcode.Float64Equal]

/-- The opcodes whose catalog descriptors the spec documents as Associative. -/
def associativeOpcodes : List IrOpcode :=
  [IrOpcode.Int32Add, IrOpcode.Int64Add, IrOpcode.Int32Mul, IrOpcode.Int64Mul,
   IrOpcode.Word32And, IrOpcode.Word64And, IrOpcode.Word32Or, IrOpcode.Word64Or,
   IrOpcode.Word32Xor, IrOpcode.Word64Xor]

/-- C1: for every MachineRepresentation r, Load(r) returns a descriptor with
input arity 2, output arity 1, the NoWrite property bit set, and the NoRead
property bit unset. -/
theorem C1_load_arity_and_effects (b : MachineOperatorBuilder)
    (r : MachineRepresentation) :
    (b.Load r).inputs = 2 ∧ (b.Load r).outputs = 1 ∧
    (b.Load r).hasProperty kNoWrite = true ∧
    (b.Load r).hasProperty kNoRead = false := by
  obtain ⟨w⟩ := b
  cases w <;> cases r <;> decide

/-- C2: for every MachineRepresentation r and WriteBarrierKind k, Store(r, k)
returns a descriptor with input arity 3, output arity 0, the NoRead property
bit set, and parameter equal to the store specification of r and k. -/
theorem C2_store_arity_effects_parameter (b : MachineOperatorBuilder)
    (r : MachineRepresentation) (k : WriteBarrierKind) :
    (b.Store r k).inputs = 3 ∧ (b.Store r k).outputs = 0 ∧
    (b.Store r k).hasProperty kNoRead = true ∧
    (b.Store r k).parameter = OpParameter.storeParam ⟨r, k⟩ := by
  obtain ⟨w⟩ := b
  cases w <;> cases r <;> cases k <;> decide

/-- C3 counterexample: the property set of
Builder(64).Store(Tagged, FullWriteBarrier) is not exactly the NoRead bit,
because the OP1 construction path ors in the NoThrow bit as well. -/
theorem C3_counterexample_properties_not_only_noread :
    ((builder64.Store MachineRepresentation.kMachineTagged
        WriteBarrierKind.kFullWriteBarrier).properties == kNoRead) = false := by
  decide

/-- C3 amended: Builder(64).Store(Tagged, FullWriteBarrier) returns a
descriptor with parameter the store specification of Tagged and
FullWriteBarrier, arity (3, 0), and property set exactly the NoRead and
NoThrow bits. -/
theorem C3_store_tagged_full_barrier :
    (builder64.Store MachineRepresentation.kMachineTagged
        WriteBarrierKind.kFullWriteBarrier).parameter =
      OpParameter.storeParam ⟨MachineRepresentation.kMachineTagged,
        WriteBarrierKind.kFullWriteBarrier⟩ ∧
    (builder64.Store MachineRepresentation.kMachineTagged
        WriteBarrierKind.kFullWriteBarrier).inputs = 3 ∧
    (builder64.Store MachineRepresentation.kMachineTagged
        WriteBarrierKind.kFullWriteBarrier).outputs = 0 ∧
    (builder64.Store MachineRepresentation.kMachineTagged
        WriteBarrierKind.kFullWriteBarrier).properties = kNoRead ||| kNoThrow :=
  ⟨rfl, rfl, rfl, rfl⟩

/-- C4: each of the seven word-width-generic methods returns, on a 32-bit
builder, the same descriptor as the Word32 variant, and on a 64-bit builder
the same descriptor as the Word64 variant. -/
theorem C4_word_generic_dispatch :
    builder32.WordAnd = builder32.Word32And ∧
    builder64.WordAnd = builder64.Word64And ∧
    builder32.WordOr = builder32.Word32Or ∧
    builder64.WordOr = builder64.Word64Or ∧
    builder32.WordXor = builder32.Word32Xor ∧
    builder64.WordXor = builder64.Word64Xor ∧
    builder32.WordShl = builder32.Word32Shl ∧
    builder64.WordShl = builder64.Word64Shl ∧
    builder32.WordShr = builder32.Word32Shr ∧
    builder64.WordShr = builder64.Word64Shr ∧
    builder32.WordSar = builder32.Word32Sar ∧
    builder64.WordSar = builder64.Word64Sar ∧
    builder32.WordEqual = builder32.Word32Equal ∧
    builder64.WordEqual = builder64.Word64Equal :=
  ⟨rfl, rfl, rfl, rfl, rfl, rfl, rfl, rfl, rfl, rfl, rfl, rfl, rfl, rfl⟩

/-- C5: constructing a builder succeeds exactly for the two legal word widths
(the CHECK aborts on any other value, modelled as none), and whenever
construction returns a builder, the stored word width is one of the two legal
values. -/
theorem C5_constructor_word_width_check (w : MachineRepresentation) :
    ((MachineOperatorBuilder.create w).isSome ↔
      (w = MachineRepresentation.kMachineWord32 ∨
       w = MachineRepresentation.kMachineWord64)) ∧
    (MachineOperatorBuilder.create w).all
      (fun b => b.word == MachineRepresentation.kMachineWord32 ||
        b.word == MachineRepresentation.kMachineWord64) = true := by
  cases w <;> exact ⟨by decide, by decide⟩

/-- C6: a catalog descriptor carries the Commutative property bit exactly when
its opcode is one of the fifteen documented commutative operations. -/
theorem C6_commutative_exactly_documented (b : MachineOperatorBuilder)
    (c : FactoryCall) :
    (b.call c).hasProperty kCommutative =
      commutativeOpcodes.contains (b.call c).opcode := by
  obtain ⟨w⟩ := b
  cases c
  case load r => cases w <;> cases r <;> decide
  case store r k => cases w <;> cases r <;> cases k <;> decide
  all_goals cases w <;> decide

/-- C7: a catalog descriptor carries the Associative property bit exactly when
its opcode is one of the ten documented associative operations, and a
descriptor with the Associative bit always carries the Commutative bit. -/
theorem C7_associative_implies_commutative (b : MachineOperatorBuilder)
    (c : FactoryCall) :
    (b.call c).hasProperty kAssociative =
      associativeOpcodes.contains (b.call c).opcode ∧
    ((b.call c).hasProperty kAssociative &&
      !((b.call c).hasProperty kCommutative)) = false := by
  obtain ⟨w⟩ := b
  cases c
  case load r => cases w <;> cases r <;> decide
  case store r k => cases w <;> cases r <;> cases k <;> decide
  all_goals cases w <;> decide

/-- C8: for every factory call on builders with the same word-width
configuration, the two constructed descriptors agree on every field (opcode,
properties, arities, mnemonic, parameter) even though each construction
allocates at a fresh zone address. -/
theorem C8_construction_deterministic (w : MachineRepresentation)
    (z1 z2 : Nat) (c : FactoryCall) :
    ((MachineOperatorBuilder.mk w).callInZone z1 c).1.2 =
      ((MachineOperatorBuilder.mk w).callInZone z2 c).1.2 ∧
    ((MachineOperatorBuilder.mk w).callInZone z1 c).1.1 = z1 ∧
    ((MachineOperatorBuilder.mk w).callInZone z1 c).2 = z1 + 1 :=
  ⟨rfl, rfl, rfl⟩

/-- C9: two Load descriptors are structurally equal if and only if their
representations are equal: the parameter is part of the operator's identity. -/
theorem C9_load_identity_iff_rep (b : MachineOperatorBuilder)
    (r1 r2 : MachineRepresentation) :
    b.Load r1 = b.Load r2 ↔ r1 = r2 := by
  constructor
  · intro h
    have h2 : OpParameter.repParam r1 = OpParameter.repParam r2 :=
      congrArg Operator.parameter h
    injection h2 with hr
  · intro h
    rw [h]

/-- C10: a catalog descriptor carries the NoThrow property bit exactly when it
was built through the parameterized OP1 path (Load or Store), which
unconditionally ors in NoThrow; no SIMPLE-path descriptor carries it. -/
theorem C10_nothrow_iff_parameterized (b : MachineOperatorBuilder)
    (c : FactoryCall) :
    (b.call c).hasProperty kNoThrow = c.isParameterized := by
  obtain ⟨w⟩ := b
  cases c
  case load r => cases w <;> cases r <;> decide
  case store r k => cases w <;> cases r <;> cases k <;> decide
  all_goals cases w <;> decide

end MachineOp
